import Mathlib

set_option maxRecDepth 100000

/-!
Verification development for the reminder/notification scheduler.

The repository contains two revisions of the same service:
* `scheduler_service.py` (the main service): `handle_due_reminders`,
  `handle_due_ai_actions`, `update_job_after_run`, `handle_daily_silent_mode`,
  `handle_expired_silent_sessions`, `run_all_due_jobs`;
* `services.py` (the runner, header `scheduler_runner.py`): `process_schedule`
  and `main`, with helpers in `database_scheduler.py`.

Both are embedded below as pure state-transition functions.  Time is modelled
as minutes since 1970-01-01T00:00 UTC; timezones as fixed minute offsets;
the `croniter` library as a five-field parser plus a minute-stepping search
for the strictly-next matching instant; failures of external calls are
supplied by an explicit environment.
-/

namespace Sched

/-- Minutes since 1970-01-01T00:00:00 UTC. -/
abbrev Minutes := Nat

/-- A civil (wall-clock) date-time, as produced by Python's `datetime`
for a given timezone: the fields that the five cron positions inspect.
`dow` uses cron numbering, 0 = Sunday. -/
structure Civil where
  year : Nat
  month : Nat
  day : Nat
  hour : Nat
  minute : Nat
  dow : Nat
  deriving Repr, DecidableEq

/-- Convert minutes-since-epoch to a civil date-time (proleptic Gregorian,
the standard days-from-civil inverse used by `datetime`).  1970-01-01 was a
Thursday, hence the `+ 4` in the day-of-week. -/
def civilOfMinutes (t : Minutes) : Civil :=
  let day := t / 1440
  let mins := t % 1440
  let z := day + 719468
  let era := z / 146097
  let doe := z % 146097
  let yoe := (doe - doe / 1460 + doe / 36524 - doe / 146096) / 365
  let doy := doe - (365 * yoe + yoe / 4 - yoe / 100)
  let mp := (5 * doy + 2) / 153
  let d := doy - (153 * mp + 2) / 5 + 1
  let m := if mp < 10 then mp + 3 else mp - 9
  { year := yoe + era * 400 + (if m ≤ 2 then 1 else 0),
    month := m, day := d,
    hour := mins / 60, minute := mins % 60,
    dow := (day + 4) % 7 }

/-- One field of a cron expression: `*` or a single number.  (The code hands
the string to `croniter`; the schedules the claims exercise use exactly this
subset, and anything outside the accepted grammar is a parse failure, which
models `croniter` raising on a malformed expression.) -/
inductive CronField where
  | star : CronField
  | exact : Nat → CronField
  deriving Repr, DecidableEq

/-- A five-field cron expression (minute, hour, day-of-month, month,
day-of-week). -/
structure CronExpr where
  minute : CronField
  hour : CronField
  dom : CronField
  month : CronField
  dow : CronField
  deriving Repr, DecidableEq

/-- Split a character list on spaces, collapsing runs of spaces, as
Python's `str.split()` does on a cron expression. -/
def splitWords : List Char → List Char → List (List Char)
  | [], acc => if acc.isEmpty then [] else [acc.reverse]
  | c :: cs, acc =>
    if c = ' ' then
      if acc.isEmpty then splitWords cs [] else acc.reverse :: splitWords cs []
    else splitWords cs (c :: acc)

/-- Decimal digit value of a character, if it is a digit. -/
def digitVal (c : Char) : Option Nat :=
  if 48 ≤ c.toNat && c.toNat ≤ 57 then some (c.toNat - 48) else none

/-- Parse a run of decimal digits (left fold with accumulator). -/
def parseNatGo : List Char → Nat → Option Nat
  | [], acc => some acc
  | c :: cs, acc =>
    match digitVal c with
    | some d => parseNatGo cs (acc * 10 + d)
    | none => none

/-- Parse a non-empty all-digit word as a number. -/
def parseNatChars : List Char → Option Nat
  | [] => none
  | cs => parseNatGo cs 0

/-- Parse one cron field: `*`, or a decimal number within `[lo, hi]`. -/
def parseField (lo hi : Nat) (cs : List Char) : Option CronField :=
  if cs = ['*'] then some CronField.star
  else
    match parseNatChars cs with
    | some n => if lo ≤ n && n ≤ hi then some (CronField.exact n) else none
    | none => none

/-- Parse a five-field cron expression; `none` models `croniter` raising
`CroniterBadCronError` on a syntactically invalid expression. -/
def parseCron (s : String) : Option CronExpr :=
  match splitWords s.toList [] with
  | [mi, h, dm, mo, dw] => do
    let fmi ← parseField 0 59 mi
    let fh ← parseField 0 23 h
    let fdm ← parseField 1 31 dm
    let fmo ← parseField 1 12 mo
    let fdw ← parseField 0 7 dw
    some { minute := fmi, hour := fh, dom := fdm, month := fmo, dow := fdw }
  | _ => none

/-- Does a single field accept a value? -/
def fieldMatch (f : CronField) (v : Nat) : Bool :=
  match f with
  | CronField.star => true
  | CronField.exact n => n == v

/-- Day-of-week field match (7 ≡ 0 ≡ Sunday). -/
def dowMatch (f : CronField) (v : Nat) : Bool :=
  match f with
  | CronField.star => true
  | CronField.exact n => n % 7 == v

/-- Standard cron day-of-month / day-of-week rule: when both fields are
restricted, the date matches if either does; otherwise both must match. -/
def domDowMatch (e : CronExpr) (c : Civil) : Bool :=
  match e.dom, e.dow with
  | CronField.star, _ => dowMatch e.dow c.dow
  | _, CronField.star => fieldMatch e.dom c.day
  | _, _ => fieldMatch e.dom c.day || dowMatch e.dow c.dow

/-- Does a cron expression fire at a given civil date-time? -/
def matchesCron (e : CronExpr) (c : Civil) : Bool :=
  fieldMatch e.minute c.minute && fieldMatch e.hour c.hour
    && fieldMatch e.month c.month && domDowMatch e c

/-- Minute-stepping search for the first instant `t` (UTC minutes) at or
after the given start whose civil time in the zone at offset `off` matches
the expression; `fuel` bounds the search. -/
def cronNextFrom (e : CronExpr) (off : Nat) : Nat → Minutes → Option Minutes
  | 0, _ => none
  | fuel + 1, t =>
    if matchesCron e (civilOfMinutes (t + off)) then some t
    else cronNextFrom e off fuel (t + 1)

/-- Search budget: 366 days of minutes, ample for every schedule the
service stores (croniter itself gives up after a bounded horizon). -/
def cronSearchFuel : Nat := 527040

/-- `croniter(expr, now).get_next(datetime)`: the strictly-next instant
after `now` whose wall clock in the zone at offset `off` matches the
expression, returned in UTC minutes. -/
def cronNext (e : CronExpr) (off : Nat) (now : Minutes) : Option Minutes :=
  cronNextFrom e off cronSearchFuel (now + 1)

/-- Fixed-offset model of the `pytz` zone table, covering the zones the
claims exercise (minutes east of UTC); `none` models
`pytz.UnknownTimeZoneError` for any other identifier. -/
def pytz_timezone (s : String) : Option Nat :=
  if s = "UTC" then some 0
  else if s = "Asia/Jakarta" then some 420
  else none

/-! ## Data model -/

/-- The action payload keys that the embedded code paths read
(`payload.get(...)` on an open JSON mapping). -/
structure Payload where
  title : Option String
  description : Option String
  notes : Option String
  category : Option String
  priority : Option String
  message : Option String
  deriving Repr, DecidableEq

/-- A task row as read back for summaries (title, status, due date,
category). -/
structure TaskRow where
  title : String
  status : String
  due_date : Option String
  category : Option String
  deriving Repr, DecidableEq

/-- A task row as inserted by `create_task_from_schedule`. -/
structure CreatedTask where
  user_id : Nat
  title : String
  description : Option String
  notes : Option String
  category : String
  priority : String
  status : String
  deriving Repr, DecidableEq

/-- The environment: results of the external collaborators (store reads,
messaging gateway, AI) and the current instant, fixed for one tick. -/
structure Env where
  now : Minutes
  cronSecret : String
  phoneOf : Nat → Option String
  sendResult : String → String → Bool
  createTaskOk : Bool
  addTaskOk : Bool
  summaryTasks : Nat → List TaskRow
  todayTasks : Nat → List TaskRow
  completedToday : Nat → List TaskRow
  pendingTasks : Nat → List TaskRow
  todaySchedules : Nat → List Payload
  activeSilent : Nat → Bool
  createSilent : Nat → Option Nat

/-- Modelled from the spec: the messaging gateway `send(phone, text) -> bool`
(the `services` module defining `send_fonnte_message` is not under `src/`).
Per the spec it returns a boolean and never raises to the caller. -/
def send_fonnte_message (env : Env) (phone text : String) : Bool :=
  env.sendResult phone text

/-! ## Runner variant: `services.py` (`process_schedule` / `main`) with
helpers from `database_scheduler.py`. -/

/-- `database_scheduler.create_task_from_schedule`: inserts a task built
from the payload with the source's defaults; `none` models the insert
failing (the function catches the error and returns `None`). -/
def create_task_from_schedule (env : Env) (uid : Nat) (p : Payload) :
    Option CreatedTask :=
  if env.createTaskOk then
    some { user_id := uid,
           title := p.title.getD "Scheduled Task",
           description := p.description,
           notes := p.notes,
           category := p.category.getD "scheduled",
           priority := p.priority.getD "medium",
           status := "todo" }
  else none

/-- Insertion into an ascending list of strings (Python `sorted` over the
due-date keys). -/
def insertSorted (s : String) : List String → List String
  | [] => [s]
  | t :: ts => if s ≤ t then s :: t :: ts else t :: insertSorted s ts

/-- Ascending sort of a list of strings. -/
def sortStrings (l : List String) : List String :=
  l.foldr insertSorted []

/-- First-occurrence deduplication (dict-key insertion order). -/
def dedupKeep : List String → List String
  | [] => []
  | s :: ss => s :: (dedupKeep ss).filter (fun t => !(t == s))

/-- The category suffix of one summary line (empty-string category is
falsy in the source and renders nothing). -/
def categorySuffix (c : Option String) : String :=
  match c with
  | some s => if s == "" then "" else " [" ++ s ++ "]"
  | none => ""

/-- `database_scheduler.format_daily_summary_message`: groups pending tasks
by due date ('No Due Date' default), lists them under sorted date headers,
then lists today's schedules. -/
def format_daily_summary_message (tasks : List TaskRow) (schedules : List Payload) :
    String :=
  let taskParts :=
    if tasks.isEmpty then ["✅ You have no pending tasks!"]
    else
      "*Pending Tasks:*" ::
        (sortStrings (dedupKeep (tasks.map (fun t => t.due_date.getD "No Due Date")))).flatMap
          (fun d =>
            ("\n*Due: " ++ d ++ "*") ::
              (tasks.filter (fun t => t.due_date.getD "No Due Date" == d)).map
                (fun t => "- " ++ t.title ++ categorySuffix t.category))
  let schedParts :=
    if schedules.isEmpty then []
    else
      "\n\n*Scheduled For Today:*" ::
        schedules.map (fun p => "- " ++ (p.message.getD (p.title.getD "a scheduled action")))
  String.intercalate "\n" ("*Your Daily Summary* 🗓️\n" :: (taskParts ++ schedParts))

/-- A partial update written by `database_scheduler.update_schedule`. -/
structure SchedUpdate where
  status : Option String
  error_message : Option String
  next_run_at : Option Minutes
  deriving Repr, DecidableEq

/-- A `scheduled_actions` row as the runner reads it. -/
structure Schedule where
  id : Nat
  user_id : Nat
  action_type : String
  action_payload : Payload
  schedule_type : String
  schedule_value : Option String
  timezone : Option String
  next_run_at : Minutes
  status : String
  deriving Repr, DecidableEq

/-- The observable result of `process_schedule` on one schedule: the patch
written back (if any), the messages sent, and the tasks created. -/
structure RunOutcome where
  patch : Option SchedUpdate
  sends : List (String × String)
  created : List CreatedTask
  deriving Repr, DecidableEq

/-- The patch `{'status': 'failed', 'error_message': msg}`. -/
def failedUpdate (msg : String) : SchedUpdate :=
  { status := some "failed", error_message := some msg, next_run_at := none }

/-- The action-execution part of `process_schedule`: the `if/elif` chain
over `action_type`; `none` is the final `else` (unknown action type). -/
def runnerExec (env : Env) (s : Schedule) (phone : String) :
    Option (List (String × String) × List CreatedTask) :=
  if s.action_type == "send_notification" then
    let message := s.action_payload.message.getD "You have a scheduled reminder."
    some ([(phone, message)], [])
  else if s.action_type == "create_task" then
    match create_task_from_schedule env s.user_id s.action_payload with
    | some task =>
      some ([(phone, "I've created a new task for you: '" ++ task.title ++ "'")], [task])
    | none => some ([], [])
  else if s.action_type == "daily_summary" then
    some ([(phone, format_daily_summary_message (env.pendingTasks s.user_id)
      (env.todaySchedules s.user_id))], [])
  else if s.action_type == "execute_prompt" then
    some ([], [])
  else none

/-- The post-execution update of `process_schedule`: `one_time` completes;
`cron` recomputes `next_run_at` with `croniter(cron_str, now_utc)` — note
the reference is the current UTC instant and the five fields are matched
against UTC wall-clock (offset 0); any failure there is caught and patches
`status='failed'`, `error_message='Invalid CRON expression'`.  Any other
`schedule_type` writes nothing. -/
def reschedUpdate (env : Env) (s : Schedule) : Option SchedUpdate :=
  if s.schedule_type == "one_time" then
    some { status := some "completed", error_message := none, next_run_at := none }
  else if s.schedule_type == "cron" then
    match s.schedule_value.bind parseCron with
    | some e =>
      match cronNext e 0 env.now with
      | some r => some { status := none, error_message := none, next_run_at := some r }
      | none => some (failedUpdate "Invalid CRON expression")
    | none => some (failedUpdate "Invalid CRON expression")
  else none

/-- `services.process_schedule`: phone lookup first (missing phone fails the
schedule before any action runs), then the action switch, then the
post-execution schedule update. -/
def process_schedule (env : Env) (s : Schedule) : RunOutcome :=
  match env.phoneOf s.user_id with
  | none =>
    { patch := some (failedUpdate "User phone not found"), sends := [], created := [] }
  | some phone =>
    match runnerExec env s phone with
    | none =>
      { patch := some (failedUpdate ("Unknown action type: " ++ s.action_type)),
        sends := [], created := [] }
    | some (sends, created) =>
      { patch := reschedUpdate env s, sends := sends, created := created }

/-- The runner's due predicate: `next_run_at <= now AND status = 'active'`. -/
def dueSchedule (env : Env) (s : Schedule) : Bool :=
  decide (s.next_run_at ≤ env.now) && s.status == "active"

/-- `services.main`: fetch the due schedules and process each one; the
per-schedule `try/except` isolates failures, so every due schedule is
processed and receives its own outcome. -/
def runMain (env : Env) (schedules : List Schedule) : List (Nat × RunOutcome) :=
  (schedules.filter (dueSchedule env)).map (fun s => (s.id, process_schedule env s))

/-- Applying a patch to a schedule row (fields the claims observe). -/
def applyScheduleUpdate (s : Schedule) (u : SchedUpdate) : Schedule :=
  { s with status := u.status.getD s.status,
           next_run_at := u.next_run_at.getD s.next_run_at }

/-! ## Main service variant: `scheduler_service.py`. -/

/-- A partial update of an `ai_actions` row, as written by
`update_job_after_run`. -/
structure JobUpdate where
  status : Option String
  next_run_at : Option Minutes
  last_run_at : Option Minutes
  deriving Repr, DecidableEq

/-- An `ai_actions` row as `handle_due_ai_actions` reads it. -/
structure Job where
  id : Nat
  user_id : Nat
  action_type : String
  description : Option String
  action_payload : Payload
  schedule_spec : Option String
  timezone : Option String
  next_run_at : Minutes
  status : String
  deriving Repr, DecidableEq

/-- A `tasks` row as the reminder sweep reads it. -/
structure TaskReminder where
  id : Nat
  user_id : Nat
  title : String
  reminder_at : Minutes
  reminder_sent : Bool
  deriving Repr, DecidableEq

/-- An exception escaping `update_job_after_run` (nothing there is caught:
`pytz.timezone` on an unknown zone, `croniter` on a malformed expression,
or `get_next` failing to find an instant). -/
inductive RunErr where
  | unknownTimezone : String → RunErr
  | badCron : String → RunErr
  | cronOverflow : RunErr
  deriving Repr, DecidableEq

/-- One observable side effect, in program order. -/
inductive Event where
  | lookup_phone : Nat → Event
  | compose : String → Event
  | log : String → Nat → Bool → Event
  | send : String → String → Bool → Event
  | create_task : CreatedTask → Event
  | mark_reminder_sent : Nat → Event
  | patch_job : Nat → JobUpdate → Event
  | create_silent : Nat → Int → Event
  deriving Repr, DecidableEq

/-- Python truthiness of `job.get("schedule_spec")`: absent or empty string
is falsy. -/
def truthy : Option String → Bool
  | none => false
  | some s => !(s == "")

/-- `scheduler_service.update_job_after_run`: on `"success"` with a truthy
`schedule_spec`, recompute the next run with
`croniter(spec, datetime.now(user_tz))` — the five fields are matched
against wall-clock in the job's timezone (default `"UTC"`) and the result
converted back to UTC — and patch `next_run_at`/`last_run_at`, leaving
`status` untouched; otherwise patch `status` to `"completed"` on success
and `"error"` on anything else.  No exception is caught here: a bad
timezone or malformed cron escapes to the caller (`Except.error`). -/
def update_job_after_run (env : Env) (job : Job) (status : String) :
    Except RunErr JobUpdate :=
  if status == "success" && truthy job.schedule_spec then
    match pytz_timezone (job.timezone.getD "UTC") with
    | none => Except.error (RunErr.unknownTimezone (job.timezone.getD "UTC"))
    | some off =>
      match parseCron (job.schedule_spec.getD "") with
      | none => Except.error (RunErr.badCron (job.schedule_spec.getD ""))
      | some e =>
        match cronNext e off env.now with
        | none => Except.error RunErr.cronOverflow
        | some r =>
          Except.ok { status := none, next_run_at := some r, last_run_at := some env.now }
  else
    Except.ok { status := some (if status == "success" then "completed" else "error"),
                next_run_at := none, last_run_at := none }

/-- Modelled from the spec: `create_task(user_id, fields) -> Task | none`
(`database_scheduler.add_task_entry` as called by the service is not in the
`src/` copy of that module); per the spec the insert uses the scheduled-task
defaults and returns the new row or nothing. -/
def add_task_entry (env : Env) (uid : Nat) (title : String) (notes : Option String) :
    Option CreatedTask :=
  if env.addTaskOk then
    some { user_id := uid, title := title, description := none, notes := notes,
           category := "scheduled", priority := "medium", status := "todo" }
  else none

/-- The `summarize_tasks` message of `handle_due_ai_actions`. -/
def summarizeMessage (outstanding : List TaskRow) : String :=
  if outstanding.isEmpty then "✨ Daily Summary: You have no outstanding tasks!"
  else
    "✨ Daily Summary! You have " ++ toString outstanding.length ++ " tasks to do:\n"
      ++ String.intercalate "\n" (outstanding.map (fun t => "- " ++ t.title))

/-- The `task_for_day` message: count-bucketed intro, first five titles,
an overflow suffix, and a fixed footer. -/
def taskForDayMessage (today : List TaskRow) : String :=
  if today.isEmpty then
    "🌟 Amazing! You have a clean slate today! No urgent tasks or deadlines. Perfect time to focus on what truly matters!"
  else
    let n := today.length
    let intro :=
      if n == 1 then "🎯 **Focus Day!** You have one key task today:"
      else if n ≤ 3 then "💪 **Power Day!** You've got " ++ toString n ++ " important tasks:"
      else "🚀 **Action Day!** " ++ toString n ++ " tasks ready for your attention:"
    let listed := String.intercalate "\n" ((today.take 5).map (fun t => "• " ++ t.title))
    let listed :=
      if 5 < n then listed ++ "\n... and " ++ toString (n - 5) ++ " more!" else listed
    intro ++ "\n\n" ++ listed ++ "\n\n✨ You've got this! Take them one at a time."

/-- The `summary_of_day` message over today's completed tasks. -/
def summaryOfDayMessage (completed : List TaskRow) : String :=
  if completed.isEmpty then
    "🌱 Every journey starts with a single step! Progress isn't always about checking boxes. What small win can you celebrate today?"
  else
    let n := completed.length
    let intro :=
      if n == 1 then "🎉 **Victory!** You completed an important task today:"
      else if n ≤ 3 then "🏆 **Champion!** You crushed " ++ toString n ++ " tasks today:"
      else "🚀 **Powerhouse!** You demolished " ++ toString n ++ " tasks today:"
    let listed := String.intercalate "\n" ((completed.take 5).map (fun t => "✅ " ++ t.title))
    let listed :=
      if 5 < n then listed ++ "\n... and " ++ toString (n - 5) ++ " more!" else listed
    intro ++ "\n\n" ++ listed ++ "\n\n🎆 Outstanding work! You're building incredible momentum!"

/-- The action-execution `if/elif` chain of `handle_due_ai_actions`, as the
ordered list of side effects it performs.  An unrecognized `action_type`
matches no branch and performs nothing (the chain has no `else`). -/
def execAction (env : Env) (job : Job) (phone : String) : List Event :=
  if job.action_type == "summarize_tasks" then
    let outstanding := (env.summaryTasks job.user_id).filter (fun t => !(t.status == "done"))
    let message := summarizeMessage outstanding
    [Event.compose message,
     Event.log "ai_action_summarize_tasks" job.id true,
     Event.send phone message (env.sendResult phone message)]
  else if job.action_type == "create_recurring_task" then
    match job.action_payload.title with
    | some title =>
      if title == "" then []
      else
        let newTask := add_task_entry env job.user_id title job.action_payload.notes
        let message := "✅ I've just created your scheduled task: '" ++ title ++ "'"
        (match newTask with
         | some t => [Event.create_task t]
         | none => []) ++
          [Event.log "ai_action_create_task" job.id newTask.isSome,
           Event.send phone message (env.sendResult phone message)]
    | none => []
  else if job.action_type == "task_for_day" then
    let message := taskForDayMessage (env.todayTasks job.user_id)
    [Event.compose message,
     Event.log "ai_action_task_for_day" job.id true,
     Event.send phone message (env.sendResult phone message)]
  else if job.action_type == "summary_of_day" then
    let message := summaryOfDayMessage (env.completedToday job.user_id)
    [Event.compose message,
     Event.log "ai_action_summary_of_day" job.id true,
     Event.send phone message (env.sendResult phone message)]
  else []

/-- The outcome of the `handle_due_ai_actions` loop: patches committed so
far, the event trace, the executed count, and the exception (if one
escaped, aborting the loop — there is no per-job `try/except`). -/
structure AiSweep where
  patches : List (Nat × JobUpdate)
  events : List Event
  executed : Nat
  err : Option RunErr
  deriving Repr, DecidableEq

/-- The loop body of `handle_due_ai_actions` over the due list: resolve the
phone (missing phone → `update_job_after_run(job, "error")` and continue),
otherwise execute the action and reschedule with `"success"`; an exception
from the reschedule aborts the loop, leaving the remaining jobs
unprocessed. -/
def aiRun (env : Env) : List Job → AiSweep
  | [] => { patches := [], events := [], executed := 0, err := none }
  | j :: rest =>
    match env.phoneOf j.user_id with
    | none =>
      match update_job_after_run env j "error" with
      | Except.ok u =>
        let st := aiRun env rest
        { st with patches := (j.id, u) :: st.patches,
                  events := Event.lookup_phone j.user_id :: Event.patch_job j.id u :: st.events }
      | Except.error e =>
        { patches := [], events := [Event.lookup_phone j.user_id], executed := 0,
          err := some e }
    | some phone =>
      let evs := execAction env j phone
      match update_job_after_run env j "success" with
      | Except.ok u =>
        let st := aiRun env rest
        { patches := (j.id, u) :: st.patches,
          events := Event.lookup_phone j.user_id :: (evs ++ Event.patch_job j.id u :: st.events),
          executed := st.executed + 1,
          err := st.err }
      | Except.error e =>
        { patches := [], events := Event.lookup_phone j.user_id :: evs, executed := 0,
          err := some e }

/-- The service's due predicate for jobs:
`next_run_at <= now AND status = 'active'`. -/
def dueJob (env : Env) (j : Job) : Bool :=
  decide (j.next_run_at ≤ env.now) && j.status == "active"

/-- `scheduler_service.handle_due_ai_actions`: query the due jobs and run
the loop. -/
def handle_due_ai_actions (env : Env) (jobs : List Job) : AiSweep :=
  aiRun env (jobs.filter (dueJob env))

/-- Outcome of the reminder sweep: the `reminder_sent` patches, the event
trace, and the returned count. -/
structure RemSweep where
  patches : List (Nat × Bool)
  events : List Event
  sent_count : Nat
  deriving Repr, DecidableEq

/-- The reminder text composed by `handle_due_reminders`. -/
def reminderMessage (title : String) : String :=
  "🔔 Reminder: Don't forget to '" ++ title ++ "'"

/-- The loop body of `handle_due_reminders`: per task, resolve the phone;
with no phone the task is skipped (no flag write); otherwise compose the
message, write the log entry, attempt the send (its boolean result is
discarded), and set `reminder_sent = true` unconditionally. -/
def remRun (env : Env) : List TaskReminder → RemSweep
  | [] => { patches := [], events := [], sent_count := 0 }
  | t :: ts =>
    let rest := remRun env ts
    match env.phoneOf t.user_id with
    | none => { rest with events := Event.lookup_phone t.user_id :: rest.events }
    | some phone =>
      let message := reminderMessage t.title
      { patches := (t.id, true) :: rest.patches,
        events := Event.lookup_phone t.user_id :: Event.compose message ::
          Event.log "send_reminder" t.id true ::
          Event.send phone message (env.sendResult phone message) ::
          Event.mark_reminder_sent t.id :: rest.events,
        sent_count := rest.sent_count + 1 }

/-- The service's due predicate for reminders:
`reminder_at <= now AND reminder_sent = false`. -/
def dueReminder (env : Env) (t : TaskReminder) : Bool :=
  decide (t.reminder_at ≤ env.now) && !t.reminder_sent

/-- `scheduler_service.handle_due_reminders`: query the due reminders and
run the loop. -/
def handle_due_reminders (env : Env) (tasks : List TaskReminder) : RemSweep :=
  remRun env (tasks.filter (dueReminder env))

/-! ## Silent-mode sweeps and the tick orchestrator. -/

/-- A `user_whatsapp` row as the auto-silent sweep reads it (the query
already filters `auto_silent_enabled = true`; hour fields default to 7
and 11 via `.get`). -/
structure SilentUser where
  user_id : Nat
  timezone : Option String
  auto_silent_enabled : Bool
  auto_silent_start_hour : Option Nat
  auto_silent_end_hour : Option Nat
  deriving Repr, DecidableEq

/-- The silent-window duration in hours, exactly the inline arithmetic of
`handle_daily_silent_mode`: `end - start` when the end hour is later,
otherwise wrap past midnight with `(24 - start) + end`. -/
def window_duration_hours (start_hour end_hour : Int) : Int :=
  if end_hour > start_hour then end_hour - start_hour
  else (24 - start_hour) + end_hour

/-- Two-digit hour as in the `f"{h:02d}"` of the activation notice. -/
def pad2 (n : Nat) : String :=
  if n < 10 then "0" ++ toString n else toString n

/-- The auto-silent activation notice. -/
def silentActivationMessage (start_hour end_hour : Nat) : String :=
  "🔇 **Auto Silent Mode Activated** \n\nI'm now in silent mode from "
    ++ pad2 start_hour ++ ":00 to " ++ pad2 end_hour
    ++ ":00 as per your preferences.\n\nI'll continue processing your requests but won't send replies until "
    ++ pad2 end_hour
    ++ ":00. You'll get a summary then.\n\n💡 **To exit early:** Send 'exit silent mode'"

/-- One user of the auto-silent sweep.  The whole body sits in a per-user
`try/except`, so an unknown timezone (`pytz.timezone` raising) is swallowed
and the sweep continues; at the start hour with no active session a session
is created (`database_silent.create_silent_session`, modelled from the spec
as the store returning a session id or nothing), the activation notice is
sent when a phone exists, and the activation is logged. -/
def silentUserStep (env : Env) (user : SilentUser) : Nat × List Event :=
  let start_hour := user.auto_silent_start_hour.getD 7
  let end_hour := user.auto_silent_end_hour.getD 11
  match pytz_timezone (user.timezone.getD "UTC") with
  | none => (0, [])
  | some off =>
    let current_hour := ((env.now + off) % 1440) / 60
    if current_hour == start_hour then
      if env.activeSilent user.user_id then (0, [])
      else
        let duration_minutes := window_duration_hours start_hour end_hour * 60
        match env.createSilent user.user_id with
        | some sid =>
          match env.phoneOf user.user_id with
          | some phone =>
            let message := silentActivationMessage start_hour end_hour
            (1, [Event.create_silent user.user_id duration_minutes,
                 Event.send phone message (env.sendResult phone message),
                 Event.log "auto_activate_silent_mode" sid true])
          | none => (1, [Event.create_silent user.user_id duration_minutes])
        | none => (0, [])
    else (0, [])

/-- The user loop of `handle_daily_silent_mode`. -/
def silentRun (env : Env) : List SilentUser → Nat × List Event
  | [] => (0, [])
  | u :: us =>
    let here := silentUserStep env u
    let rest := silentRun env us
    (here.1 + rest.1, here.2 ++ rest.2)

/-- `scheduler_service.handle_daily_silent_mode`: the store query filters
to users with auto-silent enabled, then the per-user loop runs. -/
def handle_daily_silent_mode (env : Env) (users : List SilentUser) : Nat × List Event :=
  silentRun env (users.filter (fun u => u.auto_silent_enabled))

/-- The result of one `POST /api/run-jobs` tick. -/
structure TickResult where
  http_status : Nat
  reminders : RemSweep
  ai : AiSweep
  silent_ran : Bool
  silent_managed : Nat
  deriving Repr, DecidableEq

/-- `scheduler_service.run_all_due_jobs`: bearer-token check first (401
before any processing); then the sweeps run in order inside one
`try/except` — an exception escaping the ai-action sweep aborts the tick
with HTTP 500 before the silent-mode sweeps run; otherwise HTTP 200 with
the per-sweep counts. -/
def run_all_due_jobs (env : Env) (auth : Option String)
    (tasks : List TaskReminder) (jobs : List Job) (users : List SilentUser) :
    TickResult :=
  if !(auth == some ("Bearer " ++ env.cronSecret)) then
    { http_status := 401,
      reminders := { patches := [], events := [], sent_count := 0 },
      ai := { patches := [], events := [], executed := 0, err := none },
      silent_ran := false, silent_managed := 0 }
  else
    let rem := handle_due_reminders env tasks
    let ai := handle_due_ai_actions env jobs
    match ai.err with
    | some _ =>
      { http_status := 500, reminders := rem, ai := ai,
        silent_ran := false, silent_managed := 0 }
    | none =>
      let sm := handle_daily_silent_mode env users
      { http_status := 200, reminders := rem, ai := ai,
        silent_ran := true, silent_managed := sm.1 }

/-- Applying one job patch (fields the claims observe; `status` absent from
the patch leaves the row's status as it was). -/
def applyJobUpdate (j : Job) (u : JobUpdate) : Job :=
  { j with status := u.status.getD j.status,
           next_run_at := u.next_run_at.getD j.next_run_at }

/-- Applying a sweep's patches to the job table (by id). -/
def applyJobPatches (jobs : List Job) (ps : List (Nat × JobUpdate)) : List Job :=
  jobs.map (fun j => ps.foldl (fun row p => if p.1 == row.id then applyJobUpdate row p.2 else row) j)

/-! ## Concrete fixtures used by counterexamples and witnesses. -/

/-- An empty action payload. -/
def payloadEmpty : Payload :=
  { title := none, description := none, notes := none, category := none,
    priority := none, message := none }

/-- A baseline environment; fixtures override individual fields. -/
def baseEnv : Env :=
  { now := 0, cronSecret := "s",
    phoneOf := fun _ => none,
    sendResult := fun _ _ => true,
    createTaskOk := true, addTaskOk := true,
    summaryTasks := fun _ => [], todayTasks := fun _ => [],
    completedToday := fun _ => [], pendingTasks := fun _ => [],
    todaySchedules := fun _ => [],
    activeSilent := fun _ => false,
    createSilent := fun _ => some 1 }

/-- The parsed form of `"0 9 * * *"`. -/
def cron09 : CronExpr :=
  { minute := CronField.exact 0, hour := CronField.exact 9,
    dom := CronField.star, month := CronField.star, dow := CronField.star }

/-- 2024-01-01T23:00:00Z in minutes since the epoch
(19723 days + 23 hours). -/
def jakartaNow : Minutes := 28402500

/-- A due, active cron-kind job whose cron expression is syntactically
invalid. -/
def jobBadCron : Job :=
  { id := 1, user_id := 1, action_type := "summarize_tasks", description := none,
    action_payload := payloadEmpty, schedule_spec := some "not a cron",
    timezone := some "UTC", next_run_at := 100, status := "active" }

/-- A due, active cron job with an always-matching expression, queued after
`jobBadCron` in the C7 scenario. -/
def jobAfter : Job :=
  { id := 2, user_id := 1, action_type := "summarize_tasks", description := none,
    action_payload := payloadEmpty, schedule_spec := some "* * * * *",
    timezone := some "UTC", next_run_at := 100, status := "active" }

/-- A due, active cron job whose `action_type` matches no branch of the
service's dispatch chain. -/
def jobUnknown : Job :=
  { id := 7, user_id := 2, action_type := "water_plants", description := none,
    action_payload := payloadEmpty, schedule_spec := some "* * * * *",
    timezone := some "UTC", next_run_at := 100, status := "active" }

/-- Environment for the tick counterexamples: every user has a phone,
`now = 200`. -/
def envTick : Env :=
  { baseEnv with now := 200, phoneOf := fun _ => some "628555000111" }

/-- The Jakarta scenario as a runner schedule: cron `"0 9 * * *"`, timezone
`"Asia/Jakarta"`, due at the reference instant 2024-01-01T23:00:00Z. -/
def schedJakarta : Schedule :=
  { id := 9, user_id := 3, action_type := "send_notification",
    action_payload := payloadEmpty, schedule_type := "cron",
    schedule_value := some "0 9 * * *", timezone := some "Asia/Jakarta",
    next_run_at := 28402000, status := "active" }

/-- The Jakarta scenario as a service job. -/
def jobJakarta : Job :=
  { id := 9, user_id := 3, action_type := "summarize_tasks", description := none,
    action_payload := payloadEmpty, schedule_spec := some "0 9 * * *",
    timezone := some "Asia/Jakarta", next_run_at := 28402000, status := "active" }

/-- Environment at the Jakarta reference instant, phone present. -/
def envJakarta : Env :=
  { baseEnv with now := jakartaNow, phoneOf := fun _ => some "628555000111" }

/-- The spec scenario's create-task schedule: one_time, payload title
`"Buy milk"`. -/
def schedMilk : Schedule :=
  { id := 11, user_id := 4, action_type := "create_task",
    action_payload := { payloadEmpty with title := some "Buy milk" },
    schedule_type := "one_time", schedule_value := none, timezone := none,
    next_run_at := 10, status := "active" }

/-- Environment where no user has a contact. -/
def envNoPhone : Env := { baseEnv with now := 20 }

/-- A due reminder whose user has a phone in `envTick`. -/
def remDue : TaskReminder :=
  { id := 5, user_id := 1, title := "water the plants", reminder_at := 150,
    reminder_sent := false }

/-- A one_time runner schedule with an unknown action type. -/
def schedUnknown : Schedule :=
  { id := 13, user_id := 6, action_type := "dance", action_payload := payloadEmpty,
    schedule_type := "one_time", schedule_value := none, timezone := none,
    next_run_at := 100, status := "active" }

/-- A due cron runner schedule with an always-matching expression. -/
def schedStar : Schedule :=
  { id := 14, user_id := 1, action_type := "send_notification",
    action_payload := payloadEmpty, schedule_type := "cron",
    schedule_value := some "* * * * *", timezone := none,
    next_run_at := 150, status := "active" }

/-- A due cron runner schedule with an invalid expression. -/
def schedBadCron : Schedule :=
  { id := 15, user_id := 1, action_type := "send_notification",
    action_payload := payloadEmpty, schedule_type := "cron",
    schedule_value := some "61 0 * * *", timezone := none,
    next_run_at := 150, status := "active" }

/-- An auto-silent user with an unknown timezone identifier. -/
def userBadTz : SilentUser :=
  { user_id := 20, timezone := some "Mars/Olympus", auto_silent_enabled := true,
    auto_silent_start_hour := some 22, auto_silent_end_hour := some 2 }

/-- An auto-silent user in UTC with the default window. -/
def userUtc : SilentUser :=
  { user_id := 21, timezone := some "UTC", auto_silent_enabled := true,
    auto_silent_start_hour := some 7, auto_silent_end_hour := some 11 }

/-- Event-class predicate: is this a log write? -/
def isLogEvent : Event → Bool
  | Event.log _ _ _ => true
  | _ => false

/-- Event-class predicate: is this a send attempt? -/
def isSendEvent : Event → Bool
  | Event.send _ _ _ => true
  | _ => false

end Sched

namespace Sched

/-! ## Shared lemmas about the recurrence search. -/

/-- The search never returns an instant before its starting point. -/
theorem cronNextFrom_le (e : CronExpr) (off : Nat) :
    ∀ fuel t r, cronNextFrom e off fuel t = some r → t ≤ r := by
  intro fuel
  induction fuel with
  | zero => intro t r h; exact absurd h (by simp [cronNextFrom])
  | succ n ih =>
    intro t r h
    rw [cronNextFrom] at h
    by_cases hm : matchesCron e (civilOfMinutes (t + off)) = true
    · rw [if_pos hm] at h
      exact le_of_eq (Option.some.inj h)
    · rw [if_neg hm] at h
      exact Nat.le_of_succ_le (ih (t + 1) r h)

/-- The instant the search returns matches the expression in local time. -/
theorem cronNextFrom_matches (e : CronExpr) (off : Nat) :
    ∀ fuel t r, cronNextFrom e off fuel t = some r →
      matchesCron e (civilOfMinutes (r + off)) = true := by
  intro fuel
  induction fuel with
  | zero => intro t r h; exact absurd h (by simp [cronNextFrom])
  | succ n ih =>
    intro t r h
    rw [cronNextFrom] at h
    by_cases hm : matchesCron e (civilOfMinutes (t + off)) = true
    · rw [if_pos hm] at h
      rw [← Option.some.inj h]
      exact hm
    · rw [if_neg hm] at h
      exact ih (t + 1) r h

/-- `get_next` is strictly in the future of its reference instant. -/
theorem cronNext_gt (e : CronExpr) (off : Nat) (now r : Minutes)
    (h : cronNext e off now = some r) : now < r :=
  Nat.lt_of_succ_le (cronNextFrom_le e off cronSearchFuel (now + 1) r h)

/-- The instant `get_next` returns matches the expression in the target
zone's wall clock. -/
theorem cronNext_matchesLocal (e : CronExpr) (off : Nat) (now r : Minutes)
    (h : cronNext e off now = some r) :
    matchesCron e (civilOfMinutes (r + off)) = true :=
  cronNextFrom_matches e off cronSearchFuel (now + 1) r h

/-- The patch written by `process_schedule`, by case on the phone lookup
and the action dispatch. -/
theorem process_schedule_patch (env : Env) (s : Schedule) :
    (process_schedule env s).patch =
      (match env.phoneOf s.user_id with
       | none => some (failedUpdate "User phone not found")
       | some ph =>
         match runnerExec env s ph with
         | none => some (failedUpdate ("Unknown action type: " ++ s.action_type))
         | some _ => reschedUpdate env s) := by
  cases hph : env.phoneOf s.user_id with
  | none => simp [process_schedule, hph]
  | some ph =>
    cases hex : runnerExec env s ph with
    | none => simp [process_schedule, hph, hex]
    | some pr => simp [process_schedule, hph, hex]

/-! ## Sanity checks of the embedding on known instants. -/

example : civilOfMinutes 0
    = { year := 1970, month := 1, day := 1, hour := 0, minute := 0, dow := 4 } := by decide

example : civilOfMinutes (19723 * 1440)
    = { year := 2024, month := 1, day := 1, hour := 0, minute := 0, dow := 1 } := by decide

example : parseCron "0 9 * * *" = some cron09 := by decide

example : parseCron "61 0 * * *" = none := by decide

example : parseCron "not a cron" = none := by decide

/-! ## C8: silent-window duration arithmetic. -/

/-- C8 counterexample: the claim asserts `window_duration_hours(5, 5) = 0`,
but the source's wraparound arithmetic puts equal hours in the `else`
branch and yields `(24 - 5) + 5 = 24`. -/
theorem C8_counterexample :
    ¬ (window_duration_hours 5 5 = 0) ∧ window_duration_hours 5 5 = 24 := by
  decide

/-- C8 (amended): for hours in 0..23 the duration is never negative, and
`window_duration_hours(22, 2) = 4`, `window_duration_hours(7, 11) = 4`,
while `window_duration_hours(5, 5) = 24` (a full wraparound day), not 0. -/
theorem C8_window_duration (s e : Int)
    (hs0 : 0 ≤ s) (hs : s ≤ 23) (he0 : 0 ≤ e) (he : e ≤ 23) :
    0 ≤ window_duration_hours s e ∧
    window_duration_hours 22 2 = 4 ∧
    window_duration_hours 7 11 = 4 ∧
    window_duration_hours 5 5 = 24 := by
  refine ⟨?_, by decide, by decide, by decide⟩
  unfold window_duration_hours
  split <;> omega

/-- C8 witness: the amended statement instantiated at the wraparound
window 22:00 → 02:00. -/
theorem C8_witness :
    0 ≤ window_duration_hours 22 2 ∧
    window_duration_hours 22 2 = 4 ∧
    window_duration_hours 7 11 = 4 ∧
    window_duration_hours 5 5 = 24 :=
  C8_window_duration 22 2 (by decide) (by decide) (by decide) (by decide)

/-! ## C10: rescheduling is computed from the execution instant, not the
stored `next_run_at`. -/

/-- C10: in both variants the reschedule reads only the current instant:
the patch is unchanged under any stored `next_run_at`, and whenever a new
`next_run_at` is produced it is strictly after `now` — so it equals no
instant `t ≤ now`, i.e. occurrences that fell between the stale
`next_run_at` and the execution instant are skipped, not queued. -/
theorem C10_reschedule_from_now (env : Env) (job : Job) (x : Minutes)
    (s : Schedule) (y : Minutes) :
    update_job_after_run env { job with next_run_at := x } "success"
      = update_job_after_run env job "success" ∧
    (∀ u r, update_job_after_run env job "success" = Except.ok u →
       u.next_run_at = some r → env.now < r ∧ ∀ t, t ≤ env.now → u.next_run_at ≠ some t) ∧
    process_schedule env { s with next_run_at := y } = process_schedule env s ∧
    (∀ u r, (process_schedule env s).patch = some u → u.next_run_at = some r →
       env.now < r) := by
  refine ⟨rfl, ?_, rfl, ?_⟩
  · intro u r hu hr
    rw [update_job_after_run] at hu
    split at hu
    · split at hu
      · exact absurd hu (by simp)
      · split at hu
        · exact absurd hu (by simp)
        · split at hu
          · exact absurd hu (by simp)
          · rename_i r' hnext
            have hu' := Except.ok.inj hu
            have hnr : u.next_run_at = some r' := by rw [← hu']
            have hgt := cronNext_gt _ _ _ _ hnext
            have hvr : r = r' := by
              rw [hnr] at hr
              exact (Option.some.inj hr).symm
            constructor
            · exact hvr ▸ hgt
            · intro t ht hcontra
              rw [hnr] at hcontra
              have hrt := Option.some.inj hcontra
              exact Nat.lt_irrefl _ (Nat.lt_of_lt_of_le (hrt ▸ hgt) ht)
    · have hu' := Except.ok.inj hu
      have hnone : u.next_run_at = none := by rw [← hu']
      rw [hnone] at hr
      exact absurd hr (by simp)
  · intro u r hu hr
    rw [process_schedule_patch] at hu
    split at hu
    · have := Option.some.inj hu
      rw [← this] at hr
      exact absurd hr (by simp [failedUpdate])
    · split at hu
      · have := Option.some.inj hu
        rw [← this] at hr
        exact absurd hr (by simp [failedUpdate])
      · rw [reschedUpdate] at hu
        split at hu
        · have := Option.some.inj hu
          rw [← this] at hr
          exact absurd hr (by simp)
        · split at hu
          · split at hu
            · split at hu
              · rename_i r' hnext
                have := Option.some.inj hu
                rw [← this] at hr
                have hrr := Option.some.inj hr
                exact hrr ▸ cronNext_gt _ _ _ r' hnext
              · have := Option.some.inj hu
                rw [← this] at hr
                exact absurd hr (by simp [failedUpdate])
            · have := Option.some.inj hu
              rw [← this] at hr
              exact absurd hr (by simp [failedUpdate])
          · exact absurd hu (by simp)

/-! ## C2: due reminders get their sent flag set regardless of delivery
outcome; no contact means skipped. -/

/-- The reminder loop's patches: one `(id, true)` flag write per processed
task, exactly for the tasks whose user has a phone. -/
theorem remRun_patches (env : Env) :
    ∀ ts : List TaskReminder, (remRun env ts).patches
      = (ts.filter (fun t => (env.phoneOf t.user_id).isSome)).map (fun t => (t.id, true)) := by
  intro ts
  induction ts with
  | nil => rfl
  | cons t ts ih =>
    cases h : env.phoneOf t.user_id with
    | none => simp [remRun, h, ih]
    | some ph => simp [remRun, h, ih]

/-- The reminder sweep's patches over the raw task table: only due, unsent
tasks whose user has a phone get the flag write. -/
theorem handle_due_reminders_patches (env : Env) (tasks : List TaskReminder) :
    (handle_due_reminders env tasks).patches
      = ((tasks.filter (dueReminder env)).filter
          (fun x => (env.phoneOf x.user_id).isSome)).map (fun x => (x.id, true)) :=
  remRun_patches env _

/-- C2: a due (`reminder_at <= now`), unsent reminder whose user has a
contact gets `reminder_sent := true` after the sweep; the patches are
independent of the delivery outcome function (the send result does not
gate the flag); and the patch set is exactly the due-with-contact tasks —
so a due reminder with no contact receives no patch and keeps
`sent = false`. -/
theorem C2_sent_flag_set (env : Env) (tasks : List TaskReminder) (t : TaskReminder)
    (hmem : t ∈ tasks) (hdue : t.reminder_at ≤ env.now)
    (hunsent : t.reminder_sent = false)
    (hph : (env.phoneOf t.user_id).isSome = true) :
    (t.id, true) ∈ (handle_due_reminders env tasks).patches ∧
    (∀ f, (handle_due_reminders { env with sendResult := f } tasks).patches
        = (handle_due_reminders env tasks).patches) ∧
    (handle_due_reminders env tasks).patches
      = ((tasks.filter (dueReminder env)).filter
          (fun x => (env.phoneOf x.user_id).isSome)).map (fun x => (x.id, true)) := by
  refine ⟨?_, ?_, handle_due_reminders_patches env tasks⟩
  · rw [handle_due_reminders_patches]
    refine List.mem_map.mpr ⟨t, ?_, rfl⟩
    refine List.mem_filter.mpr ⟨List.mem_filter.mpr ⟨hmem, ?_⟩, hph⟩
    simp [dueReminder, hdue, hunsent]
  · intro f
    rw [handle_due_reminders_patches, handle_due_reminders_patches]
    rfl

/-- C2 witness: the due reminder `remDue` in `envTick` (every user has a
phone) gets its flag set. -/
theorem C2_witness :
    (remDue.id, true) ∈ (handle_due_reminders envTick [remDue]).patches ∧
    (∀ f, (handle_due_reminders { envTick with sendResult := f } [remDue]).patches
        = (handle_due_reminders envTick [remDue]).patches) ∧
    (handle_due_reminders envTick [remDue]).patches
      = (([remDue].filter (dueReminder envTick)).filter
          (fun x => (envTick.phoneOf x.user_id).isSome)).map (fun x => (x.id, true)) :=
  C2_sent_flag_set envTick [remDue] remDue (by decide) (by decide) (by decide) (by decide)

/-! ## C9: the per-item side-effect order. -/

/-- C9 counterexample: for a concrete due reminder with a contact, the
event trace has the log write at index 2 and the send attempt at index 3 —
the log entry is written before the send is attempted, so the claimed
order (send before log) is false. -/
theorem C9_counterexample :
    (handle_due_reminders envTick [remDue]).events.findIdx isLogEvent = 2 ∧
    (handle_due_reminders envTick [remDue]).events.findIdx isSendEvent = 3 ∧
    ¬ ((handle_due_reminders envTick [remDue]).events.findIdx isSendEvent
        < (handle_due_reminders envTick [remDue]).events.findIdx isLogEvent) := by
  decide

/-- C9 (amended): within one processed item the side effects occur in the
fixed order resolve contact → compose message → write log → attempt send →
commit the status/flag update (the log write precedes the send attempt,
in both the reminder sweep and the ai-action sweep). -/
theorem C9_event_order (env : Env) (t : TaskReminder) (ph : String)
    (hph : env.phoneOf t.user_id = some ph)
    (j : Job) (jph : String) (hjph : env.phoneOf j.user_id = some jph)
    (hact : j.action_type = "summarize_tasks") :
    (remRun env [t]).events
      = [Event.lookup_phone t.user_id,
         Event.compose (reminderMessage t.title),
         Event.log "send_reminder" t.id true,
         Event.send ph (reminderMessage t.title)
           (env.sendResult ph (reminderMessage t.title)),
         Event.mark_reminder_sent t.id] ∧
    (∀ u, update_job_after_run env j "success" = Except.ok u →
       (aiRun env [j]).events
         = [Event.lookup_phone j.user_id,
            Event.compose (summarizeMessage
              ((env.summaryTasks j.user_id).filter (fun x => !(x.status == "done")))),
            Event.log "ai_action_summarize_tasks" j.id true,
            Event.send jph (summarizeMessage
                ((env.summaryTasks j.user_id).filter (fun x => !(x.status == "done"))))
              (env.sendResult jph (summarizeMessage
                ((env.summaryTasks j.user_id).filter (fun x => !(x.status == "done"))))),
            Event.patch_job j.id u]) := by
  constructor
  · simp [remRun, hph]
  · intro u hu
    simp [aiRun, hjph, hu, execAction, hact]

/-- C9 witness: the order instantiated at `remDue` and `jobAfter` in
`envTick`. -/
theorem C9_witness :
    (remRun envTick [remDue]).events
      = [Event.lookup_phone remDue.user_id,
         Event.compose (reminderMessage remDue.title),
         Event.log "send_reminder" remDue.id true,
         Event.send "628555000111" (reminderMessage remDue.title)
           (envTick.sendResult "628555000111" (reminderMessage remDue.title)),
         Event.mark_reminder_sent remDue.id] ∧
    (∀ u, update_job_after_run envTick jobAfter "success" = Except.ok u →
       (aiRun envTick [jobAfter]).events
         = [Event.lookup_phone jobAfter.user_id,
            Event.compose (summarizeMessage
              ((envTick.summaryTasks jobAfter.user_id).filter (fun x => !(x.status == "done")))),
            Event.log "ai_action_summarize_tasks" jobAfter.id true,
            Event.send "628555000111" (summarizeMessage
                ((envTick.summaryTasks jobAfter.user_id).filter (fun x => !(x.status == "done"))))
              (envTick.sendResult "628555000111" (summarizeMessage
                ((envTick.summaryTasks jobAfter.user_id).filter (fun x => !(x.status == "done"))))),
            Event.patch_job jobAfter.id u]) :=
  C9_event_order envTick remDue "628555000111" (by decide) jobAfter "628555000111"
    (by decide) (by decide)

/-- The runner's post-execution update for a cron-kind schedule, by case
on the parse and the search. -/
theorem reschedUpdate_cron (env : Env) (s : Schedule)
    (hkind : s.schedule_type = "cron") :
    reschedUpdate env s =
      (match s.schedule_value.bind parseCron with
       | some e =>
         match cronNext e 0 env.now with
         | some r => some { status := none, error_message := none, next_run_at := some r }
         | none => some (failedUpdate "Invalid CRON expression")
       | none => some (failedUpdate "Invalid CRON expression")) := by
  rw [reschedUpdate, hkind]
  rfl

/-! ## C1: the per-tick transition of a due cron job. -/

/-- C1 counterexample: in the main service, a due active cron-kind job
(`jobBadCron`, truthy `schedule_spec`) whose expression is malformed is
left `active` with its `next_run_at` unchanged after the tick — the
`croniter` error escapes `update_job_after_run` instead of marking the job
failed, so the claimed disjunction (greater `next_run_at` or failed) is
false. -/
theorem C1_counterexample :
    dueJob envTick jobBadCron = true ∧
    truthy jobBadCron.schedule_spec = true ∧
    (handle_due_ai_actions envTick [jobBadCron]).err
      = some (RunErr.badCron "not a cron") ∧
    (handle_due_ai_actions envTick [jobBadCron]).patches = [] ∧
    applyJobPatches [jobBadCron] (handle_due_ai_actions envTick [jobBadCron]).patches
      = [jobBadCron] := by
  decide

/-- C1 (amended): in the runner (`process_schedule`), a due active
cron-kind schedule is patched either with a strictly greater `next_run_at`
and untouched (active) status, or with `status='failed'` and no
`next_run_at` write — never decreased or unchanged.  (In the main service
the same holds except that a recurrence-computation failure escapes and
aborts the tick, leaving the job active and unchanged — see the
counterexample.) -/
theorem C1_cron_transition (env : Env) (s : Schedule)
    (_hact : s.status = "active") (hdue : s.next_run_at ≤ env.now)
    (hkind : s.schedule_type = "cron") :
    ∃ u, (process_schedule env s).patch = some u ∧
      ((u.status = none ∧ ∃ r, u.next_run_at = some r ∧ s.next_run_at < r) ∨
       (u.status = some "failed" ∧ u.next_run_at = none)) := by
  rw [process_schedule_patch]
  cases hph : env.phoneOf s.user_id with
  | none =>
    simp only [hph]
    exact ⟨failedUpdate "User phone not found", rfl, Or.inr ⟨rfl, rfl⟩⟩
  | some ph =>
    simp only [hph]
    cases hex : runnerExec env s ph with
    | none =>
      simp only [hex]
      exact ⟨_, rfl, Or.inr ⟨rfl, rfl⟩⟩
    | some pr =>
      simp only [hex]
      rw [reschedUpdate_cron env s hkind]
      cases hpar : s.schedule_value.bind parseCron with
      | none =>
        simp only [hpar]
        exact ⟨_, rfl, Or.inr ⟨rfl, rfl⟩⟩
      | some e =>
        simp only [hpar]
        cases hnext : cronNext e 0 env.now with
        | none =>
          simp only [hnext]
          exact ⟨_, rfl, Or.inr ⟨rfl, rfl⟩⟩
        | some r =>
          simp only [hnext]
          exact ⟨_, rfl, Or.inl ⟨rfl, r, rfl,
            Nat.lt_of_le_of_lt hdue (cronNext_gt e 0 env.now r hnext)⟩⟩

/-- C1 witness: the transition instantiated at the due cron schedule
`schedStar` in `envTick`. -/
theorem C1_witness :
    ∃ u, (process_schedule envTick schedStar).patch = some u ∧
      ((u.status = none ∧ ∃ r, u.next_run_at = some r ∧ schedStar.next_run_at < r) ∨
       (u.status = some "failed" ∧ u.next_run_at = none)) :=
  C1_cron_transition envTick schedStar (by decide) (by decide) (by decide)

/-! ## C3: a syntactically invalid cron expression at reschedule time. -/

/-- C3 counterexample: in the main service a due job with a malformed cron
expression aborts the whole tick — `run_all_due_jobs` answers HTTP 500,
the job is not marked failed (no patch at all), and the silent-mode sweeps
never run — contradicting "does not crash or abort the caller". -/
theorem C3_counterexample :
    (run_all_due_jobs envTick (some "Bearer s") [] [jobBadCron] []).http_status = 500 ∧
    (run_all_due_jobs envTick (some "Bearer s") [] [jobBadCron] []).ai.patches = [] ∧
    (run_all_due_jobs envTick (some "Bearer s") [] [jobBadCron] []).silent_ran = false := by
  decide

/-- C3 (amended): in the runner, a due cron schedule whose expression fails
to parse is patched to `status='failed'` with
`error_message='Invalid CRON expression'`, and processing continues: every
due schedule of the batch still receives its own outcome.  (In the main
service the same malformed expression instead aborts the whole tick with
HTTP 500 — see the counterexample.) -/
theorem C3_invalid_cron_marks_failed (env : Env) (s : Schedule)
    (hkind : s.schedule_type = "cron")
    (hbad : s.schedule_value.bind parseCron = none)
    (ph : String) (hph : env.phoneOf s.user_id = some ph)
    (hknown : (runnerExec env s ph).isSome = true) :
    (process_schedule env s).patch = some (failedUpdate "Invalid CRON expression") ∧
    ∀ ss s', s' ∈ ss → dueSchedule env s' = true →
      (s'.id, process_schedule env s') ∈ runMain env ss := by
  constructor
  · rw [process_schedule_patch]
    simp only [hph]
    obtain ⟨v, hv⟩ := Option.isSome_iff_exists.mp hknown
    simp only [hv]
    rw [reschedUpdate_cron env s hkind]
    simp only [hbad]
  · intro ss s' hmem hdue
    rw [runMain]
    exact List.mem_map.mpr ⟨s', List.mem_filter.mpr ⟨hmem, hdue⟩, rfl⟩

/-- C3 witness: `schedBadCron` (`"61 0 * * *"`, an out-of-range minute
field) in `envTick` is marked failed and the batch continues. -/
theorem C3_witness :
    (process_schedule envTick schedBadCron).patch
      = some (failedUpdate "Invalid CRON expression") ∧
    (∀ ss s', s' ∈ ss → dueSchedule envTick s' = true →
      (s'.id, process_schedule envTick s') ∈ runMain envTick ss) :=
  C3_invalid_cron_marks_failed envTick schedBadCron (by decide) (by decide)
    "628555000111" (by decide) (by decide)

/-! ## C5: an unrecognized action type. -/

/-- C5 counterexample: in the main service a due job with the unrecognized
action type `"water_plants"` matches no dispatch branch — no error
outcome, no log, no send (`execAction` is empty) — and is then rescheduled
as a success: the sweep reports it executed, patches a fresh
`next_run_at`, and the job stays active.  The claim's "never treated as a
silent no-op that is rescheduled as a success" is false. -/
theorem C5_counterexample :
    (handle_due_ai_actions envTick [jobUnknown]).err = none ∧
    execAction envTick jobUnknown "628555000111" = [] ∧
    (handle_due_ai_actions envTick [jobUnknown]).executed = 1 ∧
    (handle_due_ai_actions envTick [jobUnknown]).patches
      = [(7, { status := none, next_run_at := some 201, last_run_at := some 200 })] ∧
    applyJobPatches [jobUnknown] (handle_due_ai_actions envTick [jobUnknown]).patches
      = [{ jobUnknown with next_run_at := 201 }] := by
  decide

/-- C5 (amended): in the runner, a due schedule whose action type is none
of the recognized four is marked `failed` with an explicit
`Unknown action type` error message, with no sends and no created tasks.
(In the main service an unrecognized type is silently skipped and
rescheduled as a success — see the counterexample.) -/
theorem C5_unknown_action_runner (env : Env) (s : Schedule) (ph : String)
    (hph : env.phoneOf s.user_id = some ph)
    (h1 : s.action_type ≠ "send_notification")
    (h2 : s.action_type ≠ "create_task")
    (h3 : s.action_type ≠ "daily_summary")
    (h4 : s.action_type ≠ "execute_prompt") :
    (process_schedule env s).patch
      = some (failedUpdate ("Unknown action type: " ++ s.action_type)) ∧
    (process_schedule env s).sends = [] ∧
    (process_schedule env s).created = [] := by
  have hexec : runnerExec env s ph = none := by
    simp [runnerExec, h1, h2, h3, h4]
  have hres : process_schedule env s
      = { patch := some (failedUpdate ("Unknown action type: " ++ s.action_type)),
          sends := [], created := [] } := by
    simp [process_schedule, hph, hexec]
  rw [hres]
  exact ⟨rfl, rfl, rfl⟩

/-- C5 witness: the unknown action type `"dance"` in `envTick`. -/
theorem C5_witness :
    (process_schedule envTick schedUnknown).patch
      = some (failedUpdate ("Unknown action type: " ++ schedUnknown.action_type)) ∧
    (process_schedule envTick schedUnknown).sends = [] ∧
    (process_schedule envTick schedUnknown).created = [] :=
  C5_unknown_action_runner envTick schedUnknown "628555000111" (by decide)
    (by decide) (by decide) (by decide) (by decide)

/-! ## C6: create-task with no contact. -/

/-- C6 counterexample: the spec scenario — a due one_time create-task job
(`{title: "Buy milk"}`) whose user has no contact — is marked
`failed` (`'User phone not found'`) before the action runs: no task is
created, nothing is sent, and the status is not `completed`. -/
theorem C6_counterexample :
    dueSchedule envNoPhone schedMilk = true ∧
    process_schedule envNoPhone schedMilk
      = { patch := some (failedUpdate "User phone not found"), sends := [], created := [] } ∧
    ¬ ((process_schedule envNoPhone schedMilk).patch
        = some { status := some "completed", error_message := none, next_run_at := none }) := by
  decide

/-- C6 (amended): a due create-task schedule requires a contact: with none
the job is failed (`'User phone not found'`) and no task is created and no
send is attempted; with a contact (and the insert succeeding) the task is
created from the payload with the source defaults (`category='scheduled'`,
`priority='medium'`, `status='todo'`, title default `'Scheduled Task'`),
the one_time job completes, and a confirmation is sent. -/
theorem C6_create_task_requires_contact (env : Env) (s : Schedule)
    (htype : s.action_type = "create_task") (hkind : s.schedule_type = "one_time") :
    (env.phoneOf s.user_id = none →
       process_schedule env s
         = { patch := some (failedUpdate "User phone not found"),
             sends := [], created := [] }) ∧
    (∀ ph, env.phoneOf s.user_id = some ph → env.createTaskOk = true →
       (process_schedule env s).created
           = [{ user_id := s.user_id,
                title := s.action_payload.title.getD "Scheduled Task",
                description := s.action_payload.description,
                notes := s.action_payload.notes,
                category := s.action_payload.category.getD "scheduled",
                priority := s.action_payload.priority.getD "medium",
                status := "todo" }] ∧
       (process_schedule env s).patch
           = some { status := some "completed", error_message := none, next_run_at := none } ∧
       (process_schedule env s).sends
           = [(ph, "I've created a new task for you: '"
                ++ s.action_payload.title.getD "Scheduled Task" ++ "'")]) := by
  constructor
  · intro hph
    simp [process_schedule, hph]
  · intro ph hph hok
    have hexec : runnerExec env s ph
        = some ([(ph, "I've created a new task for you: '"
                  ++ s.action_payload.title.getD "Scheduled Task" ++ "'")],
                [{ user_id := s.user_id,
                   title := s.action_payload.title.getD "Scheduled Task",
                   description := s.action_payload.description,
                   notes := s.action_payload.notes,
                   category := s.action_payload.category.getD "scheduled",
                   priority := s.action_payload.priority.getD "medium",
                   status := "todo" }]) := by
      simp [runnerExec, htype, create_task_from_schedule, hok]
    refine ⟨?_, ?_, ?_⟩ <;>
      simp [process_schedule, hph, hexec, reschedUpdate, hkind]

/-- C6 witness: the amended statement at the `"Buy milk"` schedule in
`envNoPhone` (the no-contact branch is the live one there). -/
theorem C6_witness :
    (envNoPhone.phoneOf schedMilk.user_id = none →
       process_schedule envNoPhone schedMilk
         = { patch := some (failedUpdate "User phone not found"),
             sends := [], created := [] }) ∧
    (∀ ph, envNoPhone.phoneOf schedMilk.user_id = some ph →
       envNoPhone.createTaskOk = true →
       (process_schedule envNoPhone schedMilk).created
           = [{ user_id := schedMilk.user_id,
                title := schedMilk.action_payload.title.getD "Scheduled Task",
                description := schedMilk.action_payload.description,
                notes := schedMilk.action_payload.notes,
                category := schedMilk.action_payload.category.getD "scheduled",
                priority := schedMilk.action_payload.priority.getD "medium",
                status := "todo" }] ∧
       (process_schedule envNoPhone schedMilk).patch
           = some { status := some "completed", error_message := none, next_run_at := none } ∧
       (process_schedule envNoPhone schedMilk).sends
           = [(ph, "I've created a new task for you: '"
                ++ schedMilk.action_payload.title.getD "Scheduled Task" ++ "'")]) :=
  C6_create_task_requires_contact envNoPhone schedMilk (by decide) (by decide)

/-! ## C7: per-item failure isolation. -/

/-- C7 counterexample: one bad item (malformed cron on `jobBadCron`) in the
main service's ai-action sweep aborts the whole tick: HTTP 500, the
following due job (`jobAfter`) is never processed (no patches at all, zero
executed), and the silent-mode sweeps never run — while the earlier
reminder sweep had already committed its flag write. -/
theorem C7_counterexample :
    (run_all_due_jobs envTick (some "Bearer s") [remDue] [jobBadCron, jobAfter]
        [userUtc]).http_status = 500 ∧
    (run_all_due_jobs envTick (some "Bearer s") [remDue] [jobBadCron, jobAfter]
        [userUtc]).ai.patches = [] ∧
    (run_all_due_jobs envTick (some "Bearer s") [remDue] [jobBadCron, jobAfter]
        [userUtc]).ai.executed = 0 ∧
    (run_all_due_jobs envTick (some "Bearer s") [remDue] [jobBadCron, jobAfter]
        [userUtc]).silent_ran = false ∧
    (run_all_due_jobs envTick (some "Bearer s") [remDue] [jobBadCron, jobAfter]
        [userUtc]).reminders.patches = [(remDue.id, true)] := by
  decide

/-- C7 (amended): per-item isolation holds in the auto-silent sweep (a
user whose timezone raises is swallowed by the per-user `try/except` and
the sweep result is exactly that of the remaining users) and in the
runner's main loop (every due schedule receives its own outcome); but in
the main service's reminder/ai-action sweeps an unhandled per-item failure
aborts the whole tick with HTTP 500 — see the counterexample. -/
theorem C7_per_item_isolation (env : Env) (badUser : SilentUser)
    (users : List SilentUser)
    (henabled : badUser.auto_silent_enabled = true)
    (hbadtz : pytz_timezone (badUser.timezone.getD "UTC") = none) :
    handle_daily_silent_mode env (badUser :: users)
      = handle_daily_silent_mode env users ∧
    ∀ ss s', s' ∈ ss → dueSchedule env s' = true →
      (s'.id, process_schedule env s') ∈ runMain env ss := by
  constructor
  · have hstep : silentUserStep env badUser = (0, []) := by
      rw [silentUserStep, hbadtz]
    rw [handle_daily_silent_mode, handle_daily_silent_mode]
    rw [List.filter_cons_of_pos henabled]
    rw [silentRun, hstep]
    simp
  · intro ss s' hmem hdue
    rw [runMain]
    exact List.mem_map.mpr ⟨s', List.mem_filter.mpr ⟨hmem, hdue⟩, rfl⟩

/-- C7 witness: `userBadTz` ahead of `userUtc` in `envTick`. -/
theorem C7_witness :
    handle_daily_silent_mode envTick (userBadTz :: [userUtc])
      = handle_daily_silent_mode envTick [userUtc] ∧
    (∀ ss s', s' ∈ ss → dueSchedule envTick s' = true →
      (s'.id, process_schedule envTick s') ∈ runMain envTick ss) :=
  C7_per_item_isolation envTick userBadTz [userUtc] (by decide) (by decide)

/-! ## C4: timezone-aware next-run computation. -/

/-- C4 counterexample: the runner's recurrence computation
(`croniter(cron_str, now_utc)` in `process_schedule`) evaluates the cron
fields against UTC, not the job's timezone: for `"0 9 * * *"` with
timezone `"Asia/Jakarta"` at reference 2024-01-01T23:00:00Z (minute
28402500) it reschedules to 2024-01-02T09:00:00Z (28403100), not the
claimed 2024-01-02T02:00:00Z (28402680). -/
theorem C4_counterexample :
    (process_schedule envJakarta schedJakarta).patch
      = some { status := none, error_message := none, next_run_at := some 28403100 } ∧
    ¬ ((process_schedule envJakarta schedJakarta).patch
        = some { status := none, error_message := none, next_run_at := some 28402680 }) := by
  decide

/-- C4 (amended): the main service's `update_job_after_run` does evaluate
the five fields against wall-clock in the job's timezone and converts the
result back to UTC — the returned instant is strictly after `now` and
matches the expression at UTC+offset — and on the Jakarta scenario it
yields 2024-01-02T02:00:00Z (28402680).  The runner's `process_schedule`
instead evaluates against UTC (see the counterexample). -/
theorem C4_service_local_time (env : Env) (job : Job)
    (tzName : String) (htz : job.timezone.getD "UTC" = tzName)
    (off : Nat) (hoff : pytz_timezone tzName = some off)
    (spec : String) (hspec : job.schedule_spec = some spec) (hne : ¬ (spec = ""))
    (e : CronExpr) (hparse : parseCron spec = some e)
    (r : Minutes) (hnext : cronNext e off env.now = some r) :
    update_job_after_run env job "success"
      = Except.ok { status := none, next_run_at := some r, last_run_at := some env.now } ∧
    env.now < r ∧
    matchesCron e (civilOfMinutes (r + off)) = true ∧
    update_job_after_run envJakarta jobJakarta "success"
      = Except.ok { status := none, next_run_at := some 28402680,
                    last_run_at := some 28402500 } := by
  refine ⟨?_, cronNext_gt e off env.now r hnext,
    cronNext_matchesLocal e off env.now r hnext, by rfl⟩
  rw [update_job_after_run]
  have hcond : (("success" == "success") && truthy job.schedule_spec) = true := by
    rw [hspec]
    simp [truthy, hne]
  rw [if_pos hcond]
  simp only [htz, hoff, hspec, Option.getD_some, hparse, hnext]

/-- C4 witness: the amended statement instantiated at the Jakarta job
itself. -/
theorem C4_witness :
    update_job_after_run envJakarta jobJakarta "success"
      = Except.ok { status := none, next_run_at := some 28402680,
                    last_run_at := some envJakarta.now } ∧
    envJakarta.now < 28402680 ∧
    matchesCron cron09 (civilOfMinutes (28402680 + 420)) = true ∧
    update_job_after_run envJakarta jobJakarta "success"
      = Except.ok { status := none, next_run_at := some 28402680,
                    last_run_at := some 28402500 } :=
  C4_service_local_time envJakarta jobJakarta "Asia/Jakarta" (by decide) 420
    (by decide) "0 9 * * *" (by decide) (by decide) cron09 (by decide)
    28402680 (by decide)

/-- C10 witness: the property instantiated at the Jakarta job with an
arbitrary stale `next_run_at`. -/
theorem C10_witness :
    update_job_after_run envJakarta { jobJakarta with next_run_at := 999 } "success"
      = update_job_after_run envJakarta jobJakarta "success" ∧
    (∀ u r, update_job_after_run envJakarta jobJakarta "success" = Except.ok u →
       u.next_run_at = some r →
       envJakarta.now < r ∧ ∀ t, t ≤ envJakarta.now → u.next_run_at ≠ some t) ∧
    process_schedule envJakarta { schedJakarta with next_run_at := 888 }
      = process_schedule envJakarta schedJakarta ∧
    (∀ u r, (process_schedule envJakarta schedJakarta).patch = some u →
       u.next_run_at = some r → envJakarta.now < r) :=
  C10_reschedule_from_now envJakarta jobJakarta 999 schedJakarta 888

end Sched
